import Mathlib

/-!
# Verification of the exif-ai metadata codec

Shallow embedding of the metadata read/write pipeline of the `exif-ai`
repository (`src/exif/writer.rs`, `src/exif/reader.rs`, `src/ai/mod.rs`,
`src/pipeline.rs`).  Pure decision logic, byte-level builders and parsers are
translated into executable Lean definitions; file I/O is modelled as explicit
lists of performed file writes.  Bytes are `Nat` values (each < 256 in
practice), strings of the host language are Lean `String`s, and `f64` GPS
coordinates are modelled as exact rationals (no claim below depends on
floating-point rounding).
-/

namespace ExifAi

/-- GPS coordinates identified by the AI (`src/ai/mod.rs`, `GpsCoords`).
`f64` fields are modelled as rationals. -/
structure GpsCoords where
  latitude : ℚ
  longitude : ℚ
  deriving Repr, DecidableEq

/-- Structured metadata returned by AI vision analysis
(`src/ai/mod.rs`, `AiResult`). -/
structure AiResult where
  title : Option String := none
  description : Option String := none
  tags : Option (List String) := none
  gps : Option GpsCoords := none
  subject : Option (List String) := none
  deriving Repr, DecidableEq

/-- Which fields to write and whether to overwrite existing values
(`src/config.rs`, `ExifFields`). -/
structure ExifFields where
  write_title : Bool
  write_description : Bool
  write_tags : Bool
  write_gps : Bool
  write_subject : Bool
  overwrite_existing : Bool
  deriving Repr, DecidableEq

/-- Existing EXIF metadata extracted from an image file
(`src/exif/reader.rs`, `ExifData`).  Only the fields consulted by the
writer's decision logic are carried here; the display-only camera fields
play no role in any claim. -/
structure ExifData where
  title : Option String := none
  description : Option String := none
  keywords : Option String := none
  subject : Option String := none
  has_gps : Bool := false
  deriving Repr, DecidableEq

/-- A file path, modelled as a stem plus an optional (final) extension.
`withExtension` mirrors Rust's `Path::with_extension`: the final extension is
replaced (or appended when absent). -/
structure FsPath where
  stem : String
  ext : Option String
  deriving Repr, DecidableEq

def FsPath.withExtension (p : FsPath) (e : String) : FsPath :=
  { stem := p.stem, ext := some e }

/-- Result of writing metadata to an image file
(`src/exif/writer.rs`, `WriteResult`). -/
structure WriteResult where
  title_written : Bool := false
  description_written : Bool := false
  tags_written : Bool := false
  gps_written : Bool := false
  subject_written : Bool := false
  skipped_fields : List String := []
  sidecar_path : Option FsPath := none
  deriving Repr, DecidableEq

/-- One collected EXIF tag, abstracting `little_exif::ExifTag` values pushed
into `new_tags` by `write_exif`.  The payload strings are carried for
fidelity; GPS tags carry the coordinates (their DMS encoding happens later,
in `collect_gps_tags`). -/
inductive TagKind where
  | imageDescription (s : String)
  | xpTitle (s : String)
  | userComment (s : String)
  | xpComment (s : String)
  | xpKeywords (s : String)
  | xpSubject (s : String)
  | gpsLatitudeRef (g : GpsCoords)
  | gpsLatitude (g : GpsCoords)
  | gpsLongitudeRef (g : GpsCoords)
  | gpsLongitude (g : GpsCoords)
  deriving Repr, DecidableEq

/-- `collect_gps_tags` (`src/exif/writer.rs:1491`): pushes the four GPS tags
(latitude ref, latitude, longitude ref, longitude).  Each push in the source
is guarded by `ExifTag::from_u16_with_data(..).is_ok()`, which succeeds for
these fixed formats; the DMS payload is deferred to the tag constructor. -/
def collect_gps_tags (g : GpsCoords) : List TagKind :=
  [TagKind.gpsLatitudeRef g, TagKind.gpsLatitude g,
   TagKind.gpsLongitudeRef g, TagKind.gpsLongitude g]

/-- Rust `tags.join("; ")` used for XPKeywords / XPSubject payloads. -/
def joinSemicolon (xs : List String) : String :=
  String.intercalate "; " xs

/-- Outcome of one field's decision block in `write_exif`: whether the field
was written, the skip reason pushed onto `skipped_fields` (if any), and the
tags pushed onto `new_tags`. -/
structure FieldStep where
  written : Bool
  skip : Option String
  tags : List TagKind
  deriving Repr, DecidableEq

/-- Title block of `write_exif` (`src/exif/writer.rs:195-208`):
ImageDescription (native) + XPTitle (custom).  `make_xp_tag` is modelled as
always succeeding (it builds an `INT8U` tag from raw bytes, which
`little_exif` accepts for the XP* tag ids). -/
def titleStep (ai : AiResult) (existing : ExifData) (fields : ExifFields) :
    FieldStep :=
  if fields.write_title then
    match ai.title with
    | some t =>
      if existing.title.isNone || fields.overwrite_existing then
        ⟨true, none, [TagKind.imageDescription t, TagKind.xpTitle t]⟩
      else
        ⟨false, some "title (existing)", []⟩
    | none => ⟨false, none, []⟩
  else ⟨false, none, []⟩

/-- Description block (`src/exif/writer.rs:211-226`): UserComment (native,
with `"ASCII\0\0\0"` prefix added at byte level) + XPComment (custom). -/
def descStep (ai : AiResult) (existing : ExifData) (fields : ExifFields) :
    FieldStep :=
  if fields.write_description then
    match ai.description with
    | some d =>
      if existing.description.isNone || fields.overwrite_existing then
        ⟨true, none, [TagKind.userComment d, TagKind.xpComment d]⟩
      else
        ⟨false, some "description (existing)", []⟩
    | none => ⟨false, none, []⟩
  else ⟨false, none, []⟩

/-- Tags / keywords block (`src/exif/writer.rs:229-242`): XPKeywords. -/
def tagsStep (ai : AiResult) (existing : ExifData) (fields : ExifFields) :
    FieldStep :=
  if fields.write_tags then
    match ai.tags with
    | some ts =>
      if existing.keywords.isNone || fields.overwrite_existing then
        ⟨true, none, [TagKind.xpKeywords (joinSemicolon ts)]⟩
      else
        ⟨false, some "tags (existing)", []⟩
    | none => ⟨false, none, []⟩
  else ⟨false, none, []⟩

/-- Subject block (`src/exif/writer.rs:245-258`): XPSubject.  Note the
empty-list guard: an empty subject list is neither written nor reported. -/
def subjStep (ai : AiResult) (existing : ExifData) (fields : ExifFields) :
    FieldStep :=
  if fields.write_subject then
    match ai.subject with
    | some ss =>
      if !ss.isEmpty && (existing.subject.isNone || fields.overwrite_existing) then
        ⟨true, none, [TagKind.xpSubject (joinSemicolon ss)]⟩
      else if !ss.isEmpty then
        ⟨false, some "subject (existing)", []⟩
      else
        ⟨false, none, []⟩
    | none => ⟨false, none, []⟩
  else ⟨false, none, []⟩

/-- GPS block (`src/exif/writer.rs:261-271`): written only when no existing
GPS and the AI identified a location. -/
def gpsStep (ai : AiResult) (existing : ExifData) (fields : ExifFields) :
    FieldStep :=
  if fields.write_gps then
    match ai.gps with
    | some g =>
      if !existing.has_gps then
        ⟨true, none, collect_gps_tags g⟩
      else
        ⟨false, some "gps (existing coordinates)", []⟩
    | none => ⟨false, none, []⟩
  else ⟨false, none, []⟩

/-- The field-decision phase of `write_exif` (`src/exif/writer.rs:189-271`):
the five blocks run in order, accumulating the skip reasons and the
`new_tags` list.  Runs identically for dry runs and real writes. -/
def writeDecision (ai : AiResult) (existing : ExifData) (fields : ExifFields) :
    WriteResult × List TagKind :=
  let t := titleStep ai existing fields
  let d := descStep ai existing fields
  let k := tagsStep ai existing fields
  let s := subjStep ai existing fields
  let g := gpsStep ai existing fields
  ({ title_written := t.written
     description_written := d.written
     tags_written := k.written
     gps_written := g.written
     subject_written := s.written
     skipped_fields :=
       t.skip.toList ++ d.skip.toList ++ k.skip.toList ++
       s.skip.toList ++ g.skip.toList
     sidecar_path := none },
   t.tags ++ d.tags ++ k.tags ++ s.tags ++ g.tags)

/-! ## Per-field write filters

`write_tags_to_jpeg`'s helpers (`update_xmp_metadata`, `update_iptc_metadata`,
`write_xmp_to_png`, `write_metadata_to_webp`, `write_sidecar_xmp`,
`inject_ai_tags_into_tiff`) all gate a field's value on the same condition
`field_enabled && (existing.is_none() || overwrite_existing)`, written in the
source as `ai_result.title.as_deref().filter(|_| ...)`.  These filters are the
single point deciding whether a field value reaches the output bytes. -/

/-- Title argument handed to the XMP/IPTC builders
(e.g. `src/exif/writer.rs:417,470,525,567,805`). -/
def titleArg (ai : AiResult) (existing : ExifData) (fields : ExifFields) :
    Option String :=
  if fields.write_title && (existing.title.isNone || fields.overwrite_existing)
  then ai.title else none

/-- Description argument handed to the XMP/IPTC builders. -/
def descriptionArg (ai : AiResult) (existing : ExifData) (fields : ExifFields) :
    Option String :=
  if fields.write_description &&
      (existing.description.isNone || fields.overwrite_existing)
  then ai.description else none

/-- Keywords argument handed to the XMP/IPTC builders. -/
def keywordsArg (ai : AiResult) (existing : ExifData) (fields : ExifFields) :
    Option (List String) :=
  if fields.write_tags && (existing.keywords.isNone || fields.overwrite_existing)
  then ai.tags else none

/-! ## JPEG EXIF strategy selection (`write_tags_to_jpeg`) -/

/-- `gps_involved` (`src/exif/writer.rs:333-334`): GPS must be preserved or
written, so the little_exif round-trip (which drops the GPS IFD) is unusable. -/
def gpsInvolved (existing : ExifData) (fields : ExifFields) (ai : AiResult) :
    Bool :=
  existing.has_gps || (fields.write_gps && ai.gps.isSome)

/-- Behaviour of the external `little_exif` library on this file, which the
path-selection logic branches on: whether `load_existing_metadata` parses the
existing EXIF, and the length of the `as_u8_vec` output of the merged
metadata. -/
structure JpegWriteEnv where
  loadOk : Bool
  mergedExifLen : Nat
  deriving Repr, DecidableEq

/-- `JPEG_EXIF_OVERHEAD` (`src/exif/writer.rs:29`). -/
def JPEG_EXIF_OVERHEAD : Nat := 10

/-- The parsed-merge path (little_exif round-trip of the existing EXIF) runs
exactly when GPS is not involved and `load_existing_metadata` succeeds
(`src/exif/writer.rs:338-351`). -/
def parsedMergeTaken (existing : ExifData) (fields : ExifFields)
    (ai : AiResult) (env : JpegWriteEnv) : Bool :=
  !gpsInvolved existing fields ai && env.loadOk

/-- Whether `new_tiff_data` is still `None` after the merge attempt, i.e.
whether the `write_tags_to_jpeg` body enters the raw TIFF injection branch
(`src/exif/writer.rs:353-371`).  The merge produces data only when the
encoded EXIF exceeds the 10-byte JPEG overhead. -/
def rawInjectionTaken (existing : ExifData) (fields : ExifFields)
    (ai : AiResult) (env : JpegWriteEnv) : Bool :=
  !(parsedMergeTaken existing fields ai env &&
    decide (JPEG_EXIF_OVERHEAD < env.mergedExifLen))

/-! ## Routing and file effects of `write_exif` -/

/-- The write strategy for an image file (`src/pipeline.rs`, `ImageKind`). -/
inductive ImageKind where
  | Jpeg
  | Png
  | WebP
  | Tiff
  | Sidecar
  deriving Repr, DecidableEq

/-- A file write performed by `write_exif`, identified by target path and the
writer that ran. -/
structure FileWrite where
  path : FsPath
  writer : String
  deriving Repr, DecidableEq

/-- Model of `write_exif` (`src/exif/writer.rs:181-307`): the decision phase
runs first; on a dry run the function returns immediately with no file
touched; otherwise it routes to the per-format writer (JPEG and TIFF are
skipped entirely when no tags were collected; the Sidecar arm records the
sidecar path in the outcome).  The second component lists the files written
(each per-format writer rewrites exactly its target file).  Writer I/O errors
abort with no result; the model covers the successful paths, which is all the
claims consult. -/
def writeExifModel (p : FsPath) (ai : AiResult) (existing : ExifData)
    (fields : ExifFields) (dry_run : Bool) (image_kind : ImageKind) :
    WriteResult × List FileWrite :=
  let dec := writeDecision ai existing fields
  if dry_run then (dec.1, [])
  else
    match image_kind with
    | .Jpeg => (dec.1, if dec.2.isEmpty then [] else [⟨p, "jpeg"⟩])
    | .Png => (dec.1, [⟨p, "png"⟩])
    | .WebP => (dec.1, [⟨p, "webp"⟩])
    | .Tiff => (dec.1, if dec.2.isEmpty then [] else [⟨p, "tiff"⟩])
    | .Sidecar =>
      ({ dec.1 with sidecar_path := some (p.withExtension "xmp") },
       [⟨p.withExtension "xmp", "sidecar"⟩])

/-- Concrete field configuration with every write enabled and overwrite off
(the test default `test_fields()` of `src/exif/writer.rs`). -/
def fieldsAllOn : ExifFields :=
  { write_title := true, write_description := true, write_tags := true,
    write_gps := true, write_subject := true, overwrite_existing := false }

/-- Concrete field configuration used as witness input: all writes on,
overwrite off. -/
def fieldsNoOverwrite : ExifFields := fieldsAllOn

/-- Concrete AI result supplying every field. -/
def aiFull : AiResult :=
  { title := some "Test Title", description := some "A test description",
    tags := some ["tag1", "tag2"], gps := some ⟨1, 2⟩,
    subject := some ["Test Subject"] }

/-- Concrete existing metadata with every field present. -/
def existingFull : ExifData :=
  { title := some "Old Title", description := some "Old Desc",
    keywords := some "old; keywords", subject := some "Old Subject",
    has_gps := true }

/-! ## Reader normalization (`read_exif`, `src/exif/reader.rs:171-182`)

Metadata strings are modelled as `List Char`. -/

/-- Rust `char::is_whitespace`: membership in the Unicode `White_Space` set. -/
def rustIsWhitespace (c : Char) : Bool :=
  [0x09, 0x0A, 0x0B, 0x0C, 0x0D, 0x20, 0x85, 0xA0, 0x1680,
   0x2000, 0x2001, 0x2002, 0x2003, 0x2004, 0x2005, 0x2006, 0x2007,
   0x2008, 0x2009, 0x200A, 0x2028, 0x2029, 0x202F, 0x205F, 0x3000].contains
    c.toNat

/-- Rust `str::trim`: strip leading and trailing `White_Space` characters. -/
def trimRust (s : List Char) : List Char :=
  ((s.dropWhile rustIsWhitespace).reverse.dropWhile rustIsWhitespace).reverse

/-- The local `normalize` of `read_exif` (`src/exif/reader.rs:172-178`):
a present string that trims to empty or consists only of NUL/whitespace
characters becomes absent. -/
def normalizeField (o : Option (List Char)) : Option (List Char) :=
  match o with
  | some s =>
    if (trimRust s).isEmpty ||
        s.all (fun c => c.toNat == 0 || rustIsWhitespace c) then
      none
    else some s
  | none => none

/-- The four semantic text fields of `ExifData` immediately before the
normalization step of `read_exif` (whatever nom-exif extraction produced). -/
structure RawTextFields where
  title : Option (List Char)
  description : Option (List Char)
  keywords : Option (List Char)
  subject : Option (List Char)
  deriving Repr, DecidableEq

/-- The normalization pass `read_exif` applies to the four text fields just
before returning (`src/exif/reader.rs:179-182`). -/
def applyNormalization (r : RawTextFields) : RawTextFields :=
  { title := normalizeField r.title
    description := normalizeField r.description
    keywords := normalizeField r.keywords
    subject := normalizeField r.subject }

/-- The claim's notion of a degenerate metadata string: empty, only
whitespace, or only NUL and whitespace characters. -/
def badMetaString (s : List Char) : Bool :=
  s.isEmpty || s.all rustIsWhitespace ||
    s.all (fun c => c.toNat == 0 || rustIsWhitespace c)

/-! ## Container kind detection (`src/pipeline.rs`) -/

/-- ASCII lowercasing, standing in for Rust `str::to_lowercase`.  Every
comparison target in `ImageKind::from_path` is plain ASCII, where the two
coincide. -/
def asciiLowerChar (c : Char) : Char :=
  if 65 ≤ c.toNat && c.toNat ≤ 90 then Char.ofNat (c.toNat + 32) else c

/-- ASCII lowercase of a string. -/
def asciiLower (s : String) : String :=
  ⟨s.data.map asciiLowerChar⟩

/-- The `match` of `ImageKind::from_path` (`src/pipeline.rs:64-73`) on the
lowercased extension. -/
def extKind (e : String) : Option ImageKind :=
  if e = "jpg" || e = "jpeg" then some .Jpeg
  else if e = "png" then some .Png
  else if e = "webp" then some .WebP
  else if e = "tif" || e = "tiff" then some .Tiff
  else if e = "heic" || e = "heif" || e = "avif" ||
      e = "cr3" || e = "cr2" || e = "dng" || e = "nef" || e = "arw" ||
      e = "raf" || e = "orf" || e = "rw2" || e = "pef" || e = "srw" then
    some .Sidecar
  else none

/-- `ImageKind::from_path` (`src/pipeline.rs:62-74`): lowercase the file
extension and classify; no extension means unsupported. -/
def ImageKind.from_path (p : FsPath) : Option ImageKind :=
  p.ext.bind fun e => extKind (asciiLower e)

/-- The sidecar-only extensions named by claim C8. -/
def sidecarExts : List String :=
  ["cr3", "cr2", "dng", "nef", "arw", "raf", "orf", "rw2", "pef", "srw",
   "heic", "heif", "avif"]

/-! ## AI response parsing (`src/ai/mod.rs`)

The response parser is modelled at the JSON-value level: the candidate
extraction strategies of `extract_json_candidates` (code-fence stripping,
outermost-brace extraction, trailing-comma and quoting fixes) are lexical and
deliver a syntactically valid JSON value, which `parse_ai_response` first
hands to the serde-derived `AiResult` deserializer and — only if every typed
parse fails — to the manual extractor `value_to_ai_result`.  JSON numbers are
modelled as exact rationals. -/

/-- A JSON value (`serde_json::Value`). -/
inductive Json where
  | null
  | bool (b : Bool)
  | num (q : ℚ)
  | str (s : String)
  | arr (xs : List Json)
  | obj (kvs : List (String × Json))

/-- Object member lookup (`serde_json::Map::get`); first binding wins
(duplicate-key behaviour is not exercised by any claim). -/
def getField (kvs : List (String × Json)) (k : String) : Option Json :=
  (kvs.find? (fun kv => kv.1 = k)).map (·.2)

/-- `Value::as_str`. -/
def jsonAsStr : Json → Option String
  | .str s => some s
  | _ => none

/-- `Value::as_array`. -/
def jsonAsArray : Json → Option (List Json)
  | .arr xs => some xs
  | _ => none

/-- `Value::as_object`. -/
def jsonAsObject : Json → Option (List (String × Json))
  | .obj kvs => some kvs
  | _ => none

/-- `Value::as_f64` (every JSON number, integral or not, converts). -/
def jsonAsF64 : Json → Option ℚ
  | .num q => some q
  | _ => none

/-- serde: `Option<String>` field — missing or `null` is `None`, a string is
`Some`, anything else is a type error failing the whole parse. -/
def serdeOptString : Option Json → Option (Option String)
  | none => some none
  | some .null => some none
  | some (.str s) => some (some s)
  | some _ => none

/-- serde: `Vec<String>` — every element must be a string. -/
def serdeStringArray : List Json → Option (List String)
  | [] => some []
  | .str s :: rest => (serdeStringArray rest).map (s :: ·)
  | _ => none

/-- serde: `Option<Vec<String>>` field. -/
def serdeOptStringList : Option Json → Option (Option (List String))
  | none => some none
  | some .null => some none
  | some (.arr xs) => (serdeStringArray xs).map some
  | some _ => none

/-- serde: `GpsCoords` — an object with required numeric `latitude` and
`longitude` members (extra members are ignored). -/
def serdeGps : Json → Option GpsCoords
  | .obj kvs =>
    match (getField kvs "latitude").bind jsonAsF64,
        (getField kvs "longitude").bind jsonAsF64 with
    | some lat, some lon => some ⟨lat, lon⟩
    | _, _ => none
  | _ => none

/-- serde: `Option<GpsCoords>` field. -/
def serdeOptGps : Option Json → Option (Option GpsCoords)
  | none => some none
  | some .null => some none
  | some v => (serdeGps v).map some

/-- The serde-derived `Deserialize` for `AiResult`
(`#[derive(Deserialize)]`, `src/ai/mod.rs:25-32`): an object whose known
members all typecheck; unknown members are ignored. -/
def serdeAiResult : Json → Option AiResult
  | .obj kvs =>
    match serdeOptString (getField kvs "title"),
        serdeOptString (getField kvs "description"),
        serdeOptStringList (getField kvs "tags"),
        serdeOptGps (getField kvs "gps"),
        serdeOptStringList (getField kvs "subject") with
    | some t, some d, some k, some g, some s => some ⟨t, d, k, g, s⟩
    | _, _, _, _, _ => none
  | _ => none

/-- `value_to_ai_result`, title member (`src/ai/mod.rs:306-309`). -/
def vTitle (obj : List (String × Json)) : Option String :=
  (getField obj "title").bind jsonAsStr

/-- `value_to_ai_result`, description member (`src/ai/mod.rs:310-313`). -/
def vDescription (obj : List (String × Json)) : Option String :=
  (getField obj "description").bind jsonAsStr

/-- `value_to_ai_result`, tags member (`src/ai/mod.rs:314-320`): the string
elements of the array, kept only when non-empty. -/
def vTags (obj : List (String × Json)) : Option (List String) :=
  match (getField obj "tags").bind jsonAsArray with
  | some xs =>
    let tags := xs.filterMap jsonAsStr
    if !tags.isEmpty then some tags else none
  | none => none

/-- `value_to_ai_result`, gps member (`src/ai/mod.rs:321-331`): numeric
latitude and longitude, and the pair (0,0) is dropped. -/
def vGps (obj : List (String × Json)) : Option GpsCoords :=
  match (getField obj "gps").bind jsonAsObject with
  | some gobj =>
    match (getField gobj "latitude").bind jsonAsF64,
        (getField gobj "longitude").bind jsonAsF64 with
    | some lat, some lon =>
      if lat ≠ 0 ∨ lon ≠ 0 then some ⟨lat, lon⟩ else none
    | _, _ => none
  | none => none

/-- `value_to_ai_result`, subject member (`src/ai/mod.rs:332-338`). -/
def vSubject (obj : List (String × Json)) : Option (List String) :=
  match (getField obj "subject").bind jsonAsArray with
  | some xs =>
    let subjects := xs.filterMap jsonAsStr
    if !subjects.isEmpty then some subjects else none
  | none => none

/-- `value_to_ai_result` (`src/ai/mod.rs:301-341`).  The source threads a
mutable `result`/`found_any` pair through five independent member
extractions; since each touches a distinct field, this equals the record of
the per-member extractors, with `found_any` the disjunction of their
successes. -/
def value_to_ai_result (val : Json) : Option AiResult :=
  match jsonAsObject val with
  | none => none
  | some obj =>
    let r : AiResult :=
      { title := vTitle obj, description := vDescription obj,
        tags := vTags obj, gps := vGps obj, subject := vSubject obj }
    if (vTitle obj).isSome || (vDescription obj).isSome ||
        (vTags obj).isSome || (vGps obj).isSome || (vSubject obj).isSome then
      some r
    else none

/-- `parse_ai_response` on a well-formed JSON candidate
(`src/ai/mod.rs:116-147`): the typed serde parse is attempted first and its
result returned verbatim; only when it fails does `value_to_ai_result` run. -/
def parseCandidateValue (v : Json) : Option AiResult :=
  match serdeAiResult v with
  | some r => some r
  | none => value_to_ai_result v

/-- A concrete AI response carrying a (0,0) GPS pair that the typed serde
parse accepts directly. -/
def gpsZeroResponse : Json :=
  .obj [("title", .str "Unknown Place"), ("description", .str "Somewhere"),
        ("gps", .obj [("latitude", .num 0), ("longitude", .num 0)])]

/-! ## XMP building and the PNG / WebP writers (`src/exif/writer.rs`) -/

/-- Standard UTF-8 encoding of one character's code point. -/
def utf8Bytes (c : Char) : List Nat :=
  let n := c.toNat
  if n < 0x80 then [n]
  else if n < 0x800 then [0xC0 + n / 64, 0x80 + n % 64]
  else if n < 0x10000 then
    [0xE0 + n / 4096, 0x80 + n / 64 % 64, 0x80 + n % 64]
  else
    [0xF0 + n / 262144, 0x80 + n / 4096 % 64, 0x80 + n / 64 % 64,
     0x80 + n % 64]

/-- The UTF-8 bytes of a string, as naturals (Rust `str::as_bytes`). -/
def strBytes (s : String) : List Nat :=
  s.data.flatMap utf8Bytes

/-- `xml_escape` (`src/exif/writer.rs:782-788`), per character.  The source
chains five `str::replace` calls; since no escape sequence contains a
character of the replace set except the initially-replaced `&`, this equals
a single pass. -/
def xmlEscapeChar (c : Char) : String :=
  if c = '&' then "&amp;"
  else if c = '<' then "&lt;"
  else if c = '>' then "&gt;"
  else if c = Char.ofNat 34 then "&quot;"
  else if c = Char.ofNat 39 then "&apos;"
  else String.singleton c

/-- `xml_escape`. -/
def xml_escape (s : String) : String :=
  String.join (s.data.map xmlEscapeChar)

/-- The fresh-packet branch of `build_xmp` (`src/exif/writer.rs:637-670`).
Every call site reached by the claims below — the PNG writer (line 416), the
WebP writer (line 469) and the sidecar writer (line 524) — passes `None` for
the existing XMP, so the merge branch `inject_into_existing_xmp` is not
modelled. -/
def build_xmp_fresh (title description : Option String)
    (keywords : Option (List String)) : String :=
  let header :=
    "<?xpacket begin=\"\uFEFF\" id=\"W5M0MpCehiHzreSzNTczkc9d\"?>\n" ++
    "<x:xmpmeta xmlns:x=\"adobe:ns:meta/\">\n" ++
    "<rdf:RDF xmlns:rdf=\"http://www.w3.org/1999/02/22-rdf-syntax-ns#\">\n" ++
    "<rdf:Description rdf:about=\"\"\n" ++
    "  xmlns:dc=\"http://purl.org/dc/elements/1.1/\"\n" ++
    "  xmlns:photoshop=\"http://ns.adobe.com/photoshop/1.0/\">\n"
  let titlePart :=
    match title with
    | some t =>
      let e := xml_escape t
      "  <dc:title><rdf:Alt><rdf:li xml:lang=\"x-default\">" ++ e ++
        "</rdf:li></rdf:Alt></dc:title>\n" ++
      "  <photoshop:Headline>" ++ e ++ "</photoshop:Headline>\n"
    | none => ""
  let descPart :=
    match description with
    | some d =>
      let e := xml_escape d
      "  <dc:description><rdf:Alt><rdf:li xml:lang=\"x-default\">" ++ e ++
        "</rdf:li></rdf:Alt></dc:description>\n" ++
      "  <photoshop:CaptionWriter>AI</photoshop:CaptionWriter>\n"
    | none => ""
  let kwPart :=
    match keywords with
    | some kw =>
      "  <dc:subject><rdf:Bag>\n" ++
      String.join (kw.map (fun k => "    <rdf:li>" ++ xml_escape k ++
        "</rdf:li>\n")) ++
      "  </rdf:Bag></dc:subject>\n"
    | none => ""
  header ++ titlePart ++ descPart ++ kwPart ++
    "</rdf:Description>\n</rdf:RDF>\n</x:xmpmeta>\n<?xpacket end=\"w\"?>"

/-- A PNG chunk: 4-character type plus raw contents (CRC is recomputed by
img-parts on encode and not carried here). -/
structure PngChunk where
  kind : String
  contents : List Nat
  deriving Repr, DecidableEq

/-- The iTXt keyword marking an XMP chunk. -/
def xmpChunkKeyword : List Nat := strBytes "XML:com.adobe.xmp"

/-- `write_xmp_to_png` (`src/exif/writer.rs:404-452`), on the parsed chunk
list: build the XMP packet from the filtered field values, drop any existing
XMP iTXt chunk, and insert the new iTXt chunk before the first IDAT (at the
end when there is none).  Runs whatever the field configuration — there is no
emptiness guard. -/
def write_xmp_to_png (chunks : List PngChunk) (ai : AiResult)
    (existing : ExifData) (fields : ExifFields) : List PngChunk :=
  let xmp_xml := build_xmp_fresh (titleArg ai existing fields)
    (descriptionArg ai existing fields) (keywordsArg ai existing fields)
  let chunk_data := xmpChunkKeyword ++ [0, 0, 0, 0, 0] ++ strBytes xmp_xml
  let retained := chunks.filter (fun c =>
    if c.kind = "iTXt" then !(xmpChunkKeyword.isPrefixOf c.contents) else true)
  let insert_pos :=
    (retained.findIdx? (fun c => c.kind = "IDAT")).getD retained.length
  retained.insertIdx insert_pos ⟨"iTXt", chunk_data⟩

/-- A RIFF chunk of a WebP file. -/
structure RiffChunk where
  kind : String
  contents : List Nat
  deriving Repr, DecidableEq

/-- `write_metadata_to_webp` (`src/exif/writer.rs:455-498`), on the parsed
chunk list: remove every `"XMP "` chunk and append a fresh one; then, only
when the title passes its filter, replace the EXIF chunk with a minimal
little_exif stream (whose exact external encoding the claims never consult —
it is represented by the title's bytes). -/
def write_metadata_to_webp (chunks : List RiffChunk) (ai : AiResult)
    (existing : ExifData) (fields : ExifFields) : List RiffChunk :=
  let xmp_xml := build_xmp_fresh (titleArg ai existing fields)
    (descriptionArg ai existing fields) (keywordsArg ai existing fields)
  let afterXmp := chunks.filter (fun c => c.kind ≠ "XMP ") ++
    [⟨"XMP ", strBytes xmp_xml⟩]
  if fields.write_title then
    match ai.title with
    | some t =>
      if existing.title.isNone || fields.overwrite_existing then
        afterXmp.filter (fun c => c.kind ≠ "EXIF") ++ [⟨"EXIF", strBytes t⟩]
      else afterXmp
    | none => afterXmp
  else afterXmp

/-! ## IPTC APP13 building (`build_iptc_contents`, `src/exif/writer.rs:856-945`)

Field values are the UTF-8 byte lists of the `&str` arguments. -/

/-- Big-endian `u16` bytes (matching `u16::to_be_bytes` after an `as u16`
cast). -/
def be16 (v : Nat) : List Nat := [v / 256 % 256, v % 256]

/-- Big-endian `u32` bytes. -/
def be32 (v : Nat) : List Nat :=
  [v / 2 ^ 24 % 256, v / 2 ^ 16 % 256, v / 2 ^ 8 % 256, v % 256]

/-- `"Photoshop 3.0\0"`. -/
def IPTC_HEADER : List Nat := strBytes "Photoshop 3.0" ++ [0]

/-- `"8BIM"`. -/
def IPTC_8BIM : List Nat := strBytes "8BIM"

/-- `data[start..stop]`. -/
def listSlice (data : List Nat) (start stop : Nat) : List Nat :=
  (data.drop start).take (stop - start)

/-- One iteration of the resource walk of `build_iptc_contents`
(`src/exif/writer.rs:868-891`): at `pos`, either `none` (the `while`
condition or a structural check fails, ending the walk) or the resource id,
the verbatim resource bytes (clamped to the payload end), and the position of
the next resource. -/
def iptcResourceStep (data : List Nat) (pos : Nat) :
    Option (Nat × List Nat × Nat) :=
  if pos + 12 ≤ data.length then
    if listSlice data pos (pos + 4) = IPTC_8BIM then
      let resource_id := data.getD (pos + 4) 0 * 256 + data.getD (pos + 5) 0
      let pascal_len := data.getD (pos + 6) 0
      let pascal_padded :=
        if (pascal_len + 1) % 2 = 0 then pascal_len + 1 else pascal_len + 2
      let data_start := pos + 6 + pascal_padded
      if data_start + 4 ≤ data.length then
        let data_len := data.getD data_start 0 * 2 ^ 24 +
          data.getD (data_start + 1) 0 * 2 ^ 16 +
          data.getD (data_start + 2) 0 * 2 ^ 8 + data.getD (data_start + 3) 0
        let resource_end := data_start + 4 + data_len
        let resource_end_padded :=
          if data_len % 2 = 0 then resource_end else resource_end + 1
        some (resource_id,
          listSlice data pos (min resource_end_padded data.length),
          resource_end_padded)
      else none
    else none
  else none

/-- The resource-copy `while` loop of `build_iptc_contents`
(`src/exif/writer.rs:866-893`): walk the 8BIM resources from `pos`, copying
each resource whose id is not 0x0404 verbatim.  The fuel argument bounds the
iteration count; `data.length` iterations always suffice because each step
advances `pos` by at least 11 bytes. -/
def iptcCopyLoop : Nat → List Nat → Nat → List Nat
  | 0, _, _ => []
  | fuel + 1, data, pos =>
    match iptcResourceStep data pos with
    | some (resource_id, bytes, next) =>
      (if resource_id ≠ 0x0404 then bytes else []) ++ iptcCopyLoop fuel data next
    | none => []

/-- Declarative parse of the same walk: the list of
`(resource id, verbatim resource bytes)` pairs the loop visits. -/
def parse8BIMResources : Nat → List Nat → Nat → List (Nat × List Nat)
  | 0, _, _ => []
  | fuel + 1, data, pos =>
    match iptcResourceStep data pos with
    | some (resource_id, bytes, next) =>
      (resource_id, bytes) :: parse8BIMResources fuel data next
    | none => []

/-- `build_iptc_contents` (`src/exif/writer.rs:856-945`): the Photoshop
header, the preserved non-IPTC resources of the existing block, then one
0x0404 resource holding the IIM datasets (record version, object name,
keywords, caption), zero-padded to even length. -/
def build_iptc_contents (existing : Option (List Nat))
    (title description : Option (List Nat))
    (keywords : Option (List (List Nat))) : List Nat :=
  let preserved :=
    match existing with
    | some data => iptcCopyLoop data.length data IPTC_HEADER.length
    | none => []
  let iptc_data :=
    -- Record version (2:0) — required
    [0x1C, 0x02, 0x00, 0x00, 0x02, 0x00, 0x02] ++
    -- Object Name / Title (2:5)
    (match title with
     | some t => [0x1C, 0x02, 0x05] ++ be16 (min t.length 64) ++ t.take 64
     | none => []) ++
    -- Keywords (2:25) — one record per keyword
    (match keywords with
     | some kw =>
       kw.flatMap (fun k =>
         [0x1C, 0x02, 0x19] ++ be16 (min k.length 64) ++ k.take 64)
     | none => []) ++
    -- Caption/Abstract (2:120)
    (match description with
     | some d => [0x1C, 0x02, 0x78] ++ be16 (min d.length 2000) ++ d.take 2000
     | none => [])
  let resource :=
    if iptc_data.isEmpty then []
    else
      IPTC_8BIM ++ be16 0x0404 ++ [0x00, 0x00] ++ be32 iptc_data.length ++
        iptc_data ++ (if iptc_data.length % 2 ≠ 0 then [0x00] else [])
  IPTC_HEADER ++ preserved ++ resource

/-- One IIM dataset as described by the spec: `0x1C` marker, record number,
dataset number, big-endian `u16` payload length, payload. -/
def iimDataset (record dataset : Nat) (payload : List Nat) : List Nat :=
  [0x1C, record, dataset] ++ be16 payload.length ++ payload

/-- The IIM data of the new 0x0404 resource, laid out per the claim:
record-version 2:0 = 0x0002, then 2:5 = title truncated to 64 bytes, then one
2:25 per keyword in order (truncated to 64 bytes), then 2:120 = description
truncated to 2000 bytes. -/
def iimSpec (title description : Option (List Nat))
    (keywords : Option (List (List Nat))) : List Nat :=
  iimDataset 2 0 [0x00, 0x02] ++
  (match title with
   | some t => iimDataset 2 5 (t.take 64)
   | none => []) ++
  (match keywords with
   | some kw => kw.flatMap (fun k => iimDataset 2 25 (k.take 64))
   | none => []) ++
  (match description with
   | some d => iimDataset 2 120 (d.take 2000)
   | none => [])

/-- The new 0x0404 resource per the claim: `8BIM`, id 0x0404 (BE), empty
Pascal name with its pad byte, big-endian `u32` data length, the IIM data,
zero-padded to even length. -/
def iptcResourceSpec (title description : Option (List Nat))
    (keywords : Option (List (List Nat))) : List Nat :=
  let iim := iimSpec title description keywords
  IPTC_8BIM ++ be16 0x0404 ++ [0x00, 0x00] ++ be32 iim.length ++ iim ++
    (if iim.length % 2 = 0 then [] else [0x00])

/-- The existing 8BIM resources with id ≠ 0x0404, copied verbatim, per the
claim. -/
def preservedResourcesSpec (data : List Nat) : List Nat :=
  (((parse8BIMResources data.length data IPTC_HEADER.length).filter
    (fun r => decide (r.1 ≠ 0x0404))).map Prod.snd).flatten

/-- A concrete well-formed APP13 payload: one opaque resource (id 0x0403,
two data bytes) followed by one IPTC-IIM resource (id 0x0404, one data byte
plus its pad). -/
def iptcWitnessBlock : List Nat :=
  IPTC_HEADER ++
  (IPTC_8BIM ++ [0x04, 0x03] ++ [0x00, 0x00] ++ [0, 0, 0, 2] ++ [0xAA, 0xBB]) ++
  (IPTC_8BIM ++ [0x04, 0x04] ++ [0x00, 0x00] ++ [0, 0, 0, 1] ++ [0xCC, 0x00])

/-! ## Raw TIFF injection (`inject_ai_tags_into_tiff`,
`src/exif/writer.rs:1008-1416`)

Bytes are naturals; `u16`/`u32` reads and writes honour the stream's
endianness.  The `f64` DMS conversion of GPS coordinates is carried out on
exact rationals with Rust's saturating `as u32` casts. -/

/-- XP tag ids (`src/exif/writer.rs:18-25`). -/
def TAG_XP_TITLE : Nat := 0x9C9B

def TAG_XP_COMMENT : Nat := 0x9C9C

def TAG_XP_KEYWORDS : Nat := 0x9C9E

def TAG_XP_SUBJECT : Nat := 0x9C9F

def TAG_GPS_LATITUDE_REF : Nat := 0x0001

def TAG_GPS_LATITUDE : Nat := 0x0002

def TAG_GPS_LONGITUDE_REF : Nat := 0x0003

def TAG_GPS_LONGITUDE : Nat := 0x0004

/-- Little-endian `u32` bytes (`u32::to_le_bytes`). -/
def le32 (v : Nat) : List Nat :=
  [v % 256, v / 256 % 256, v / 2 ^ 16 % 256, v / 2 ^ 24 % 256]

/-- The UTF-16 code units of one character (surrogate pair above U+FFFF). -/
def utf16Units (c : Char) : List Nat :=
  if c.toNat < 0x10000 then [c.toNat]
  else [0xD800 + (c.toNat - 0x10000) / 0x400,
        0xDC00 + (c.toNat - 0x10000) % 0x400]

/-- `encode_utf16le` (`src/exif/writer.rs:55-64`): UTF-16LE bytes plus a
two-byte NUL terminator. -/
def encode_utf16le (s : String) : List Nat :=
  (s.data.flatMap utf16Units).flatMap (fun u => [u % 256, u / 256 % 256]) ++
    [0, 0]

/-- `encode_gps_rational` (`src/exif/writer.rs:80-89`): three little-endian
unsigned rationals. -/
def encode_gps_rational (degrees minutes seconds_num seconds_den : Nat) :
    List Nat :=
  le32 degrees ++ le32 1 ++ le32 minutes ++ le32 1 ++ le32 seconds_num ++
    le32 seconds_den

/-- A raw IFD entry (`src/exif/writer.rs:948-954`). -/
structure RawIfdEntry where
  tag_id : Nat
  data_format : Nat
  count : Nat
  inline_value : List Nat
  extra_data : Option (List Nat)
  deriving Repr, DecidableEq

/-- `make_string_entry` (`src/exif/writer.rs:957-971`); the `big_endian`
parameter is unused in the source as well. -/
def make_string_entry (tag_id : Nat) (value : String) (big_endian : Bool) :
    RawIfdEntry :=
  let _ := big_endian
  let data := strBytes value ++ [0]
  let count := data.length
  if data.length ≤ 4 then
    ⟨tag_id, 2, count, data ++ List.replicate (4 - data.length) 0, none⟩
  else
    ⟨tag_id, 2, count, [0, 0, 0, 0], some data⟩

/-- `make_xp_entry` (`src/exif/writer.rs:974-987`). -/
def make_xp_entry (tag_id : Nat) (value : String) : RawIfdEntry :=
  let data := encode_utf16le value
  let count := data.length
  if data.length ≤ 4 then
    ⟨tag_id, 1, count, data ++ List.replicate (4 - data.length) 0, none⟩
  else
    ⟨tag_id, 1, count, [0, 0, 0, 0], some data⟩

/-- `make_user_comment_entry` (`src/exif/writer.rs:990-1002`). -/
def make_user_comment_entry (tag_id : Nat) (value : String) : RawIfdEntry :=
  let data := strBytes "ASCII" ++ [0, 0, 0] ++ strBytes value
  ⟨tag_id, 7, data.length, [0, 0, 0, 0], some data⟩

/-- Rust's saturating `expr as u32` on a nonnegative-or-clamped rational:
truncate toward zero, clamping to `[0, 2^32)`. -/
def ratAsU32 (q : ℚ) : Nat :=
  if q < 0 then 0 else min (Int.toNat ⌊q⌋) (2 ^ 32 - 1)

/-- Pad a short byte string into the 4-byte inline slot
(`inline_value[..b.len().min(4)].copy_from_slice(..)`). -/
def padTo4 (b : List Nat) : List Nat :=
  b.take 4 ++ List.replicate (4 - min b.length 4) 0

/-- `make_raw_gps_entries` (`src/exif/writer.rs:1419-1488`): the four GPS
entries with DMS rationals (denominator 10000 on the seconds). -/
def make_raw_gps_entries (gps : GpsCoords) : List RawIfdEntry :=
  let lat := gps.latitude
  let lon := gps.longitude
  let lat_ref : String := if lat ≥ 0 then "N" else "S"
  let lon_ref : String := if lon ≥ 0 then "E" else "W"
  let lat_abs := |lat|
  let lon_abs := |lon|
  let lat_deg := ratAsU32 lat_abs
  let lat_min := ratAsU32 ((lat_abs - (lat_deg : ℚ)) * 60)
  let lat_sec :=
    ratAsU32 ((lat_abs - (lat_deg : ℚ) - (lat_min : ℚ) / 60) * 3600 * 10000)
  let lon_deg := ratAsU32 lon_abs
  let lon_min := ratAsU32 ((lon_abs - (lon_deg : ℚ)) * 60)
  let lon_sec :=
    ratAsU32 ((lon_abs - (lon_deg : ℚ) - (lon_min : ℚ) / 60) * 3600 * 10000)
  [⟨TAG_GPS_LATITUDE_REF, 2, 2, padTo4 (strBytes lat_ref ++ [0]), none⟩,
   ⟨TAG_GPS_LATITUDE, 5, 3, [0, 0, 0, 0],
     some (encode_gps_rational lat_deg lat_min lat_sec 10000)⟩,
   ⟨TAG_GPS_LONGITUDE_REF, 2, 2, padTo4 (strBytes lon_ref ++ [0]), none⟩,
   ⟨TAG_GPS_LONGITUDE, 5, 3, [0, 0, 0, 0],
     some (encode_gps_rational lon_deg lon_min lon_sec 10000)⟩]

/-- The IFD0 additions of `inject_ai_tags_into_tiff`
(`src/exif/writer.rs:1028-1062`): ImageDescription + XPTitle, XPComment,
XPKeywords, XPSubject, each under its field's write filter. -/
def tiffIfd0Additions (ai : AiResult) (existing : ExifData)
    (fields : ExifFields) (big_endian : Bool) : List RawIfdEntry :=
  (if fields.write_title then
    match ai.title with
    | some t =>
      if existing.title.isNone || fields.overwrite_existing then
        [make_string_entry 0x010E t big_endian, make_xp_entry TAG_XP_TITLE t]
      else []
    | none => []
   else []) ++
  (if fields.write_description then
    match ai.description with
    | some d =>
      if existing.description.isNone || fields.overwrite_existing then
        [make_xp_entry TAG_XP_COMMENT d]
      else []
    | none => []
   else []) ++
  (if fields.write_tags then
    match ai.tags with
    | some ts =>
      if existing.keywords.isNone || fields.overwrite_existing then
        [make_xp_entry TAG_XP_KEYWORDS (joinSemicolon ts)]
      else []
    | none => []
   else []) ++
  (if fields.write_subject then
    match ai.subject with
    | some ss =>
      if !ss.isEmpty && (existing.subject.isNone || fields.overwrite_existing)
      then [make_xp_entry TAG_XP_SUBJECT (joinSemicolon ss)]
      else []
    | none => []
   else [])

/-- The ExifIFD additions (`src/exif/writer.rs:1037-1044`): UserComment. -/
def tiffExifIfdAdditions (ai : AiResult) (existing : ExifData)
    (fields : ExifFields) : List RawIfdEntry :=
  if fields.write_description then
    match ai.description with
    | some d =>
      if existing.description.isNone || fields.overwrite_existing then
        [make_user_comment_entry 0x9286 d]
      else []
    | none => []
  else []

/-- The GPS IFD additions (`src/exif/writer.rs:1064-1072`). -/
def tiffGpsAdditions (ai : AiResult) (existing : ExifData)
    (fields : ExifFields) : List RawIfdEntry :=
  if fields.write_gps then
    match ai.gps with
    | some g => if !existing.has_gps then make_raw_gps_entries g else []
    | none => []
  else []

/-- The byte-order marker check (`src/exif/writer.rs:1018-1022`):
`true` for big-endian `"MM"`, `false` for little-endian `"II"`. -/
def tiffByteOrder (original : List Nat) : Option Bool :=
  if original.take 2 = [0x4D, 0x4D] then some true
  else if original.take 2 = [0x49, 0x49] then some false
  else none

/-- `read_u16` closure (`src/exif/writer.rs:1079-1085`). -/
def readU16 (big : Bool) (data : Array Nat) (off : Nat) : Nat :=
  if big then data.getD off 0 * 256 + data.getD (off + 1) 0
  else data.getD (off + 1) 0 * 256 + data.getD off 0

/-- `read_u32` closure (`src/exif/writer.rs:1086-1092`). -/
def readU32 (big : Bool) (data : Array Nat) (off : Nat) : Nat :=
  if big then
    ((data.getD off 0 * 256 + data.getD (off + 1) 0) * 256 +
      data.getD (off + 2) 0) * 256 + data.getD (off + 3) 0
  else
    ((data.getD (off + 3) 0 * 256 + data.getD (off + 2) 0) * 256 +
      data.getD (off + 1) 0) * 256 + data.getD off 0

/-- `encode_u16` closure (`src/exif/writer.rs:1093-1095`). -/
def encodeU16 (big : Bool) (v : Nat) : List Nat :=
  if big then be16 v else [v % 256, v / 256 % 256]

/-- `encode_u32` closure (`src/exif/writer.rs:1096-1098`). -/
def encodeU32 (big : Bool) (v : Nat) : List Nat :=
  if big then be32 v else le32 v

/-- `result[off..off+n].copy_from_slice(xs)`. -/
def setSlice (a : Array Nat) (off : Nat) (xs : List Nat) : Array Nat :=
  xs.enum.foldl (fun acc p => acc.setD (off + p.1) p.2) a

/-- Serialize one 12-byte IFD entry against the running output: returns the
entry bytes and the output extended with the entry's heap data (if any) —
the common pattern of `src/exif/writer.rs:1204-1218,1264-1279,1324-1340`. -/
def pushEntry (big : Bool) (result : Array Nat) (entry : RawIfdEntry) :
    List Nat × Array Nat :=
  let ib := encodeU16 big entry.tag_id ++ encodeU16 big entry.data_format ++
    encodeU32 big entry.count
  match entry.extra_data with
  | some extra =>
    (ib ++ encodeU32 big result.size, result ++ extra.toArray)
  | none => (ib ++ entry.inline_value, result)

/-- Copy `count` 12-byte entries starting at `start` from the original. -/
def copyEntries (orig : Array Nat) (start count : Nat) : List Nat :=
  (List.range (count * 12)).map (fun j => orig.getD (start + j) 0)

/-- The rebuild phase of `inject_ai_tags_into_tiff`
(`src/exif/writer.rs:1100-1415`): parse IFD0 and the referenced ExifIFD/GPS
IFD, append rebuilt IFDs at the end of the stream (ExifIFD, then GPS IFD,
then IFD0), fill replaced and appended entry slots, patch the IFD0 pointers
to the relocated sub-IFDs and the header pointer to the new IFD0. -/
def injectRebuild (original : List Nat) (big : Bool)
    (ifd0_entries exif_ifd_entries gps_ifd_entries : List RawIfdEntry) :
    Except String (List Nat) := Id.run do
  let orig := original.toArray
  let len := original.length
  -- Parse IFD0
  let ifd0_offset := readU32 big orig 4
  if ifd0_offset + 2 > len then
    return .error "IFD0 offset out of bounds"
  let ifd0_count := readU16 big orig ifd0_offset
  let ifd0_start := ifd0_offset + 2
  let ifd0_end := ifd0_start + ifd0_count * 12
  if ifd0_end + 4 > len then
    return .error "IFD0 entries extend beyond TIFF data"
  let ifd0_tag_ids := (List.range ifd0_count).map
    (fun i => readU16 big orig (ifd0_start + i * 12))
  let ifd0_next := readU32 big orig ifd0_end
  -- ExifIFD / GPS IFD offsets from IFD0 (tags 0x8769 / 0x8825)
  let exif_ifd_offset : Option Nat :=
    (ifd0_tag_ids.findIdx? (fun t => t = 0x8769)).map
      (fun i => readU32 big orig (ifd0_start + i * 12 + 8))
  let gps_ifd_offset : Option Nat :=
    (ifd0_tag_ids.findIdx? (fun t => t = 0x8825)).map
      (fun i => readU32 big orig (ifd0_start + i * 12 + 8))
  -- Parse existing GPS IFD if present
  let (gps_count, gps_start, gps_next) :=
    match gps_ifd_offset with
    | some go =>
      if go + 2 ≤ len then
        let count := readU16 big orig go
        let start := go + 2
        let e := start + count * 12
        if e + 4 ≤ len then (count, start, readU32 big orig e) else (0, 0, 0)
      else (0, 0, 0)
    | none => (0, 0, 0)
  -- Parse ExifIFD if it exists
  let (exif_count, exif_start, exif_tag_ids, exif_next) :=
    match exif_ifd_offset with
    | some eo =>
      if eo + 2 ≤ len then
        let count := readU16 big orig eo
        let start := eo + 2
        let e := start + count * 12
        if e + 4 ≤ len then
          ((count, start,
            (List.range count).map (fun i => readU16 big orig (start + i * 12)),
            readU32 big orig e) : Nat × Nat × List Nat × Nat)
        else (0, 0, [], 0)
      else (0, 0, [], 0)
    | none => (0, 0, [], 0)
  let mut result : Array Nat := orig
  -- Rebuild ExifIFD at the end (if there are ExifIFD entries to add)
  let mut new_exif_ifd_start : Option Nat := none
  if !exif_ifd_entries.isEmpty && exif_ifd_offset.isSome then
    let exif_append_count := (exif_ifd_entries.filter
      (fun e => !(exif_tag_ids.contains e.tag_id))).length
    let total := exif_count + exif_append_count
    let start := result.size
    result := result ++ (encodeU16 big total).toArray
    result := result ++ (copyEntries orig exif_start exif_count).toArray
    let append_start := result.size
    result := result ++ (List.replicate (exif_append_count * 12) 0).toArray
    result := result ++ (encodeU32 big exif_next).toArray
    let mut raw : Array (Nat × List Nat) := #[]
    for entry in exif_ifd_entries do
      let (ib, result') := pushEntry big result entry
      result := result'
      raw := raw.push (entry.tag_id, ib)
    let entries_base := start + 2
    let mut slot := 0
    for p in raw do
      match exif_tag_ids.findIdx? (fun t => t = p.1) with
      | some idx => result := setSlice result (entries_base + idx * 12) p.2
      | none =>
        result := setSlice result (append_start + slot * 12) p.2
        slot := slot + 1
    new_exif_ifd_start := some start
  -- Rebuild GPS IFD at the end
  let mut new_gps_ifd_start : Option Nat := none
  if !gps_ifd_entries.isEmpty || gps_ifd_offset.isSome then
    let start := result.size
    let total := gps_count + gps_ifd_entries.length
    if total > 0 then
      result := result ++ (encodeU16 big total).toArray
      result := result ++ (copyEntries orig gps_start gps_count).toArray
      let gps_append_start := result.size
      result := result ++
        (List.replicate (gps_ifd_entries.length * 12) 0).toArray
      result := result ++ (encodeU32 big gps_next).toArray
      let mut raw_gps : Array (List Nat) := #[]
      for entry in gps_ifd_entries do
        let (ib, result') := pushEntry big result entry
        result := result'
        raw_gps := raw_gps.push ib
      for p in raw_gps.toList.enum do
        result := setSlice result (gps_append_start + p.1 * 12) p.2
      new_gps_ifd_start := some start
  -- New GPS needs an IFD0 pointer entry when none exists yet
  let need_gps_pointer :=
    new_gps_ifd_start.isSome && !(ifd0_tag_ids.contains 0x8825)
  -- Rebuild IFD0 at the end
  let ifd0_append_count := (ifd0_entries.filter
      (fun e => !(ifd0_tag_ids.contains e.tag_id))).length +
    (if need_gps_pointer then 1 else 0)
  let ifd0_total := ifd0_count + ifd0_append_count
  let new_ifd0_start := result.size
  result := result ++ (encodeU16 big ifd0_total).toArray
  result := result ++ (copyEntries orig ifd0_start ifd0_count).toArray
  let ifd0_append_start := result.size
  result := result ++ (List.replicate (ifd0_append_count * 12) 0).toArray
  result := result ++ (encodeU32 big ifd0_next).toArray
  let mut raw0 : Array (Nat × List Nat) := #[]
  for entry in ifd0_entries do
    let (ib, result') := pushEntry big result entry
    result := result'
    raw0 := raw0.push (entry.tag_id, ib)
  let ifd0_entries_base := new_ifd0_start + 2
  let mut slot0 := 0
  for p in raw0 do
    match ifd0_tag_ids.findIdx? (fun t => t = p.1) with
    | some idx => result := setSlice result (ifd0_entries_base + idx * 12) p.2
    | none =>
      result := setSlice result (ifd0_append_start + slot0 * 12) p.2
      slot0 := slot0 + 1
  -- New GPS pointer entry in the last appended slot (offset patched below)
  if need_gps_pointer then
    let off := ifd0_append_start + slot0 * 12
    let ib := encodeU16 big 0x8825 ++ encodeU16 big 4 ++ encodeU32 big 1 ++
      encodeU32 big 0
    result := setSlice result off ib
  -- Patch the ExifIFD pointer in the new IFD0
  match new_exif_ifd_start with
  | some new_exif_off =>
    for i in [0:ifd0_total] do
      let eo := ifd0_entries_base + i * 12
      if eo + 12 ≤ result.size then
        if readU16 big result eo = 0x8769 then
          result := setSlice result (eo + 8) (encodeU32 big new_exif_off)
          break
  | none => pure ()
  -- Patch the GPS IFD pointer in the new IFD0 (the source repeats the same
  -- scan in both the fresh-pointer and existing-pointer branches)
  match new_gps_ifd_start with
  | some new_gps_off =>
    for i in [0:ifd0_total] do
      let eo := ifd0_entries_base + i * 12
      if eo + 12 ≤ result.size then
        if readU16 big result eo = 0x8825 then
          result := setSlice result (eo + 8) (encodeU32 big new_gps_off)
          break
  | none => pure ()
  -- Update the TIFF header to point at the new IFD0
  result := setSlice result 4 (encodeU32 big new_ifd0_start)
  return .ok result.toList

/-- `inject_ai_tags_into_tiff` (`src/exif/writer.rs:1008-1076` and the
rebuild): validate the header, build the additions, return the original
bytes untouched when there is nothing to add, otherwise rebuild. -/
def inject_ai_tags_into_tiff (original : List Nat) (ai : AiResult)
    (existing : ExifData) (fields : ExifFields) : Except String (List Nat) :=
  if original.length < 8 then .error "Original TIFF data too short"
  else
    match tiffByteOrder original with
    | none => .error "Invalid TIFF byte order"
    | some big_endian =>
      let ifd0_entries := tiffIfd0Additions ai existing fields big_endian
      let exif_ifd_entries := tiffExifIfdAdditions ai existing fields
      let gps_ifd_entries := tiffGpsAdditions ai existing fields
      if ifd0_entries.isEmpty && exif_ifd_entries.isEmpty &&
          gps_ifd_entries.isEmpty then
        .ok original
      else
        injectRebuild original big_endian ifd0_entries exif_ifd_entries
          gps_ifd_entries

end ExifAi

namespace ExifAi

/-- The field a collected tag belongs to: 0 = title, 1 = description,
2 = keywords, 3 = subject, 4 = GPS. -/
def TagKind.fieldIdx : TagKind → Nat
  | .imageDescription _ => 0
  | .xpTitle _ => 0
  | .userComment _ => 1
  | .xpComment _ => 1
  | .xpKeywords _ => 2
  | .xpSubject _ => 3
  | .gpsLatitudeRef _ => 4
  | .gpsLatitude _ => 4
  | .gpsLongitudeRef _ => 4
  | .gpsLongitude _ => 4

theorem mem_titleStep_fieldIdx {x : TagKind} {ai : AiResult} {e : ExifData}
    {f : ExifFields} (h : x ∈ (titleStep ai e f).tags) : x.fieldIdx = 0 := by
  unfold titleStep at h
  split at h <;> [skip; simp_all]
  rcases hx : ai.title with _ | t <;> rw [hx] at h <;> simp_all
  split at h <;> simp_all <;> rcases h with h | h <;> simp [h, TagKind.fieldIdx]

theorem mem_descStep_fieldIdx {x : TagKind} {ai : AiResult} {e : ExifData}
    {f : ExifFields} (h : x ∈ (descStep ai e f).tags) : x.fieldIdx = 1 := by
  unfold descStep at h
  split at h <;> [skip; simp_all]
  rcases hx : ai.description with _ | d <;> rw [hx] at h <;> simp_all
  split at h <;> simp_all <;> rcases h with h | h <;> simp [h, TagKind.fieldIdx]

theorem mem_tagsStep_fieldIdx {x : TagKind} {ai : AiResult} {e : ExifData}
    {f : ExifFields} (h : x ∈ (tagsStep ai e f).tags) : x.fieldIdx = 2 := by
  unfold tagsStep at h
  split at h <;> [skip; simp_all]
  rcases hx : ai.tags with _ | ts <;> rw [hx] at h <;> simp_all
  split at h <;> simp_all [TagKind.fieldIdx]

theorem mem_subjStep_fieldIdx {x : TagKind} {ai : AiResult} {e : ExifData}
    {f : ExifFields} (h : x ∈ (subjStep ai e f).tags) : x.fieldIdx = 3 := by
  unfold subjStep at h
  split at h <;> [skip; simp_all]
  rcases hx : ai.subject with _ | ss <;> rw [hx] at h <;> simp_all
  split at h <;> [simp_all [TagKind.fieldIdx]; skip]
  split at h <;> simp_all

theorem mem_gpsStep_fieldIdx {x : TagKind} {ai : AiResult} {e : ExifData}
    {f : ExifFields} (h : x ∈ (gpsStep ai e f).tags) : x.fieldIdx = 4 := by
  unfold gpsStep at h
  split at h <;> [skip; simp_all]
  rcases hx : ai.gps with _ | g <;> rw [hx] at h <;> simp_all
  split at h <;> simp_all [collect_gps_tags] <;>
    rcases h with h | h | h | h <;> simp [h, TagKind.fieldIdx]

/-- C1: When GPS writing is enabled, the AI result carries GPS coordinates, and
the existing metadata already has GPS, `write_exif` never writes GPS: the
outcome has `gps_written = false` and `skipped_fields` contains
`"gps (existing coordinates)"`, whatever the value of `overwrite_existing`. -/
theorem gps_never_overwritten (ai : AiResult) (existing : ExifData)
    (fields : ExifFields) (g : GpsCoords)
    (hw : fields.write_gps = true) (hg : ai.gps = some g)
    (he : existing.has_gps = true) :
    (writeDecision ai existing fields).1.gps_written = false ∧
      "gps (existing coordinates)" ∈
        (writeDecision ai existing fields).1.skipped_fields := by
  have hgps : gpsStep ai existing fields =
      ⟨false, some "gps (existing coordinates)", []⟩ := by
    simp [gpsStep, hw, hg, he]
  constructor
  · simp [writeDecision, hgps]
  · simp [writeDecision, hgps]

/-- Witness for C1 at a concrete input. -/
theorem gps_never_overwritten_witness :
    let ai : AiResult := { gps := some ⟨488566/10000, 23522/10000⟩ }
    let existing : ExifData := { has_gps := true }
    let fields : ExifFields :=
      { write_title := true, write_description := true, write_tags := true,
        write_gps := true, write_subject := true, overwrite_existing := true }
    (writeDecision ai existing fields).1.gps_written = false ∧
      "gps (existing coordinates)" ∈
        (writeDecision ai existing fields).1.skipped_fields :=
  gps_never_overwritten _ _ _ _ rfl rfl rfl

/-- C2: For a JPEG write, whenever the existing metadata has GPS, or GPS
writing is enabled and the AI result carries coordinates, the little_exif
round-trip (parsed-merge path) is never taken and the raw TIFF injection
branch runs; and when GPS is not involved but `load_existing_metadata` fails,
the writer falls back to raw injection. -/
theorem jpeg_gps_forces_raw_injection (existing : ExifData)
    (fields : ExifFields) (ai : AiResult) (env : JpegWriteEnv) :
    (gpsInvolved existing fields ai = true →
      parsedMergeTaken existing fields ai env = false ∧
      rawInjectionTaken existing fields ai env = true) ∧
    (gpsInvolved existing fields ai = false → env.loadOk = false →
      rawInjectionTaken existing fields ai env = true) := by
  constructor
  · intro h
    constructor
    · simp [parsedMergeTaken, h]
    · simp [rawInjectionTaken, parsedMergeTaken, h]
  · intro h hl
    simp [rawInjectionTaken, parsedMergeTaken, hl]

/-- Witness for C2 at concrete inputs: a file with existing GPS (merge path
skipped, raw injection used) and a GPS-free file whose EXIF little_exif
cannot parse (fallback to raw injection). -/
theorem jpeg_gps_forces_raw_injection_witness :
    (parsedMergeTaken { has_gps := true } fieldsAllOn { } ⟨true, 100⟩ = false ∧
     rawInjectionTaken { has_gps := true } fieldsAllOn { } ⟨true, 100⟩ = true) ∧
    rawInjectionTaken { } fieldsAllOn { } ⟨false, 100⟩ = true :=
  ⟨(jpeg_gps_forces_raw_injection { has_gps := true } fieldsAllOn { }
      ⟨true, 100⟩).1 rfl,
   (jpeg_gps_forces_raw_injection { } fieldsAllOn { } ⟨false, 100⟩).2 rfl rfl⟩

/-- C3 counterexample: with `overwrite_existing = false`, subject writing
enabled, an existing subject present, and the AI result supplying a (degenerate,
empty) subject list, the subject is not written — but `skipped_fields` does NOT
receive the `"subject (existing)"` entry, because the skip push is guarded by
`!subjects.is_empty()` (`src/exif/writer.rs:254`). -/
theorem no_overwrite_skip_entry_counterexample :
    let ai : AiResult := { subject := some [] }
    let existing : ExifData := { subject := some "Existing Subject" }
    let fields : ExifFields :=
      { write_title := true, write_description := true, write_tags := true,
        write_gps := true, write_subject := true, overwrite_existing := false }
    fields.overwrite_existing = false ∧ fields.write_subject = true ∧
    existing.subject.isSome = true ∧ ai.subject.isSome = true ∧
    (writeDecision ai existing fields).1.subject_written = false ∧
    "subject (existing)" ∉ (writeDecision ai existing fields).1.skipped_fields := by
  decide

/-- C3 (amended): with `overwrite_existing = false`, each enabled field among
title, description, tags and subject whose existing value is present while
the AI result supplies a value (for subject: a non-empty list) is not
written: its written boolean is false, `skipped_fields` holds the
corresponding reason, the argument the per-format writers receive for the
field is `none`, and no tag for that field enters `new_tags` — so the field's
value in the output is unchanged. -/
theorem no_overwrite_preserves_existing_fields (ai : AiResult)
    (existing : ExifData) (fields : ExifFields)
    (hov : fields.overwrite_existing = false) :
    (fields.write_title = true → ai.title.isSome = true →
      existing.title.isSome = true →
      (writeDecision ai existing fields).1.title_written = false ∧
      "title (existing)" ∈ (writeDecision ai existing fields).1.skipped_fields ∧
      titleArg ai existing fields = none ∧
      ∀ x ∈ (writeDecision ai existing fields).2, x.fieldIdx ≠ 0) ∧
    (fields.write_description = true → ai.description.isSome = true →
      existing.description.isSome = true →
      (writeDecision ai existing fields).1.description_written = false ∧
      "description (existing)" ∈
        (writeDecision ai existing fields).1.skipped_fields ∧
      descriptionArg ai existing fields = none ∧
      ∀ x ∈ (writeDecision ai existing fields).2, x.fieldIdx ≠ 1) ∧
    (fields.write_tags = true → ai.tags.isSome = true →
      existing.keywords.isSome = true →
      (writeDecision ai existing fields).1.tags_written = false ∧
      "tags (existing)" ∈ (writeDecision ai existing fields).1.skipped_fields ∧
      keywordsArg ai existing fields = none ∧
      ∀ x ∈ (writeDecision ai existing fields).2, x.fieldIdx ≠ 2) ∧
    (∀ ss, fields.write_subject = true → ai.subject = some ss → ss ≠ [] →
      existing.subject.isSome = true →
      (writeDecision ai existing fields).1.subject_written = false ∧
      "subject (existing)" ∈ (writeDecision ai existing fields).1.skipped_fields ∧
      ∀ x ∈ (writeDecision ai existing fields).2, x.fieldIdx ≠ 3) := by
  refine ⟨?_, ?_, ?_, ?_⟩
  · intro hw hai hex
    obtain ⟨t, ht⟩ := Option.isSome_iff_exists.mp hai
    obtain ⟨et, het⟩ := Option.isSome_iff_exists.mp hex
    have hstep : titleStep ai existing fields =
        ⟨false, some "title (existing)", []⟩ := by
      simp [titleStep, hw, ht, het, hov]
    refine ⟨by simp [writeDecision, hstep], by simp [writeDecision, hstep],
      by simp [titleArg, het, hov], ?_⟩
    intro x hx
    simp only [writeDecision, hstep, List.nil_append, List.append_nil,
      List.mem_append] at hx
    rcases hx with ((h | h) | h) | h
    · exact (by simp [mem_descStep_fieldIdx h])
    · exact (by simp [mem_tagsStep_fieldIdx h])
    · exact (by simp [mem_subjStep_fieldIdx h])
    · exact (by simp [mem_gpsStep_fieldIdx h])
  · intro hw hai hex
    obtain ⟨d, hd⟩ := Option.isSome_iff_exists.mp hai
    obtain ⟨ed, hed⟩ := Option.isSome_iff_exists.mp hex
    have hstep : descStep ai existing fields =
        ⟨false, some "description (existing)", []⟩ := by
      simp [descStep, hw, hd, hed, hov]
    refine ⟨by simp [writeDecision, hstep], by simp [writeDecision, hstep],
      by simp [descriptionArg, hed, hov], ?_⟩
    intro x hx
    simp only [writeDecision, hstep, List.nil_append, List.append_nil,
      List.mem_append] at hx
    rcases hx with ((h | h) | h) | h
    · exact (by simp [mem_titleStep_fieldIdx h])
    · exact (by simp [mem_tagsStep_fieldIdx h])
    · exact (by simp [mem_subjStep_fieldIdx h])
    · exact (by simp [mem_gpsStep_fieldIdx h])
  · intro hw hai hex
    obtain ⟨ts, hts⟩ := Option.isSome_iff_exists.mp hai
    obtain ⟨ek, hek⟩ := Option.isSome_iff_exists.mp hex
    have hstep : tagsStep ai existing fields =
        ⟨false, some "tags (existing)", []⟩ := by
      simp [tagsStep, hw, hts, hek, hov]
    refine ⟨by simp [writeDecision, hstep], by simp [writeDecision, hstep],
      by simp [keywordsArg, hek, hov], ?_⟩
    intro x hx
    simp only [writeDecision, hstep, List.nil_append, List.append_nil,
      List.mem_append] at hx
    rcases hx with ((h | h) | h) | h
    · exact (by simp [mem_titleStep_fieldIdx h])
    · exact (by simp [mem_descStep_fieldIdx h])
    · exact (by simp [mem_subjStep_fieldIdx h])
    · exact (by simp [mem_gpsStep_fieldIdx h])
  · intro ss hw hss hne hex
    obtain ⟨es, hes⟩ := Option.isSome_iff_exists.mp hex
    have hstep : subjStep ai existing fields =
        ⟨false, some "subject (existing)", []⟩ := by
      simp [subjStep, hw, hss, hes, hov, hne]
    refine ⟨by simp [writeDecision, hstep], by simp [writeDecision, hstep], ?_⟩
    intro x hx
    simp only [writeDecision, hstep, List.append_nil, List.nil_append,
      List.mem_append] at hx
    rcases hx with ((h | h) | h) | h
    · exact (by simp [mem_titleStep_fieldIdx h])
    · exact (by simp [mem_descStep_fieldIdx h])
    · exact (by simp [mem_tagsStep_fieldIdx h])
    · exact (by simp [mem_gpsStep_fieldIdx h])

/-- Witness for C3 (amended) at a concrete input: all four fields enabled,
existing values present everywhere, AI values supplied everywhere, overwrite
off — every field is skipped with its reason and no tag is collected. -/
theorem no_overwrite_preserves_existing_fields_witness :
    (writeDecision aiFull existingFull fieldsNoOverwrite).1.title_written = false ∧
    "title (existing)" ∈
      (writeDecision aiFull existingFull fieldsNoOverwrite).1.skipped_fields ∧
    titleArg aiFull existingFull fieldsNoOverwrite = none ∧
    (∀ x ∈ (writeDecision aiFull existingFull fieldsNoOverwrite).2,
      x.fieldIdx ≠ 0) := by
  exact (no_overwrite_preserves_existing_fields aiFull existingFull
    fieldsNoOverwrite rfl).1 rfl rfl rfl

/-- C10: On a dry run, `write_exif` touches no file — even the Sidecar kind
produces no sidecar, and the outcome's `sidecar_path` is `none` — while the
per-field written booleans and the skipped list are exactly those the
decision logic computes for a real write of any kind. -/
theorem dry_run_no_file_writes (p q : FsPath) (ai : AiResult)
    (existing : ExifData) (fields : ExifFields) (kind kind' : ImageKind) :
    writeExifModel p ai existing fields true kind =
      ((writeDecision ai existing fields).1, []) ∧
    (writeExifModel p ai existing fields true kind).1.sidecar_path = none ∧
    ((writeExifModel p ai existing fields true kind).1.title_written =
      (writeExifModel q ai existing fields false kind').1.title_written ∧
     (writeExifModel p ai existing fields true kind).1.description_written =
      (writeExifModel q ai existing fields false kind').1.description_written ∧
     (writeExifModel p ai existing fields true kind).1.tags_written =
      (writeExifModel q ai existing fields false kind').1.tags_written ∧
     (writeExifModel p ai existing fields true kind).1.gps_written =
      (writeExifModel q ai existing fields false kind').1.gps_written ∧
     (writeExifModel p ai existing fields true kind).1.subject_written =
      (writeExifModel q ai existing fields false kind').1.subject_written ∧
     (writeExifModel p ai existing fields true kind).1.skipped_fields =
      (writeExifModel q ai existing fields false kind').1.skipped_fields) := by
  refine ⟨by simp [writeExifModel], by simp [writeExifModel, writeDecision], ?_⟩
  cases kind' <;> simp [writeExifModel]

theorem normalizeField_not_bad (o : Option (List Char)) (s : List Char)
    (h : normalizeField o = some s) : badMetaString s = false := by
  cases o with
  | none => simp [normalizeField] at h
  | some t =>
    simp only [normalizeField] at h
    split at h
    · exact absurd h (by simp)
    · rename_i hguard
      have hor : ((trimRust t).isEmpty ||
          t.all (fun c => c.toNat == 0 || rustIsWhitespace c)) = false := by
        simpa using hguard
      have hf : t.all (fun c => c.toNat == 0 || rustIsWhitespace c) = false :=
        (Bool.or_eq_false_iff.mp hor).2
      have hne : t.isEmpty = false := by
        cases t with
        | nil => simp at hf
        | cons a l => rfl
      have hws : t.all rustIsWhitespace = false := by
        cases hcon : t.all rustIsWhitespace with
        | false => rfl
        | true =>
          exfalso
          have hall : t.all (fun c => c.toNat == 0 || rustIsWhitespace c) = true := by
            rw [List.all_eq_true] at hcon ⊢
            intro c hc
            simp [hcon c hc]
          rw [hall] at hf
          exact absurd hf (by simp)
      have hts : t = s := by simpa using h
      rw [← hts]
      simp [badMetaString, hne, hws, hf]

/-- C9: The normalization pass the reader applies before returning guarantees
that none of the four text fields of the returned record is present with an
empty, whitespace-only, or NUL-and-whitespace-only string. -/
theorem reader_never_returns_blank_fields (r : RawTextFields) :
    (∀ s, (applyNormalization r).title = some s → badMetaString s = false) ∧
    (∀ s, (applyNormalization r).description = some s →
      badMetaString s = false) ∧
    (∀ s, (applyNormalization r).keywords = some s → badMetaString s = false) ∧
    (∀ s, (applyNormalization r).subject = some s → badMetaString s = false) :=
  ⟨fun s h => normalizeField_not_bad r.title s h,
   fun s h => normalizeField_not_bad r.description s h,
   fun s h => normalizeField_not_bad r.keywords s h,
   fun s h => normalizeField_not_bad r.subject s h⟩

/-- Witness for C9 at a concrete input: a record whose title survives
normalization is indeed not degenerate (and, for illustration, a NUL-only
keywords value present before the pass). -/
theorem reader_never_returns_blank_fields_witness :
    (applyNormalization
        { title := some ['T'], description := none,
          keywords := some [Char.ofNat 0], subject := none }).title =
      some ['T'] ∧
    badMetaString ['T'] = false :=
  ⟨by decide,
   (reader_never_returns_blank_fields
      { title := some ['T'], description := none,
        keywords := some [Char.ofNat 0], subject := none }).1 ['T'] (by decide)⟩

/-- C8: A file whose extension lowercases to one of the thirteen RAW/HEIC
extensions is classified `Sidecar`; a successful non-dry-run Sidecar write
writes exactly one file — a companion `.xmp` whose path is the original with
its extension replaced (not appended) — so the original file's bytes are
untouched; the outcome records that sidecar path. -/
theorem sidecar_formats_never_touch_original (stem ext : String)
    (ai : AiResult) (existing : ExifData) (fields : ExifFields)
    (h : asciiLower ext ∈ sidecarExts) :
    ImageKind.from_path ⟨stem, some ext⟩ = some ImageKind.Sidecar ∧
    FsPath.withExtension ⟨stem, some ext⟩ "xmp" = ⟨stem, some "xmp"⟩ ∧
    (writeExifModel ⟨stem, some ext⟩ ai existing fields false
        ImageKind.Sidecar).2 =
      [⟨⟨stem, some "xmp"⟩, "sidecar"⟩] ∧
    (⟨stem, some "xmp"⟩ : FsPath) ≠ ⟨stem, some ext⟩ ∧
    (writeExifModel ⟨stem, some ext⟩ ai existing fields false
        ImageKind.Sidecar).1.sidecar_path = some ⟨stem, some "xmp"⟩ := by
  have hk : extKind (asciiLower ext) = some ImageKind.Sidecar := by
    generalize asciiLower ext = e at h
    fin_cases h <;> rfl
  have hne : ext ≠ "xmp" := by
    intro hcontra
    rw [hcontra] at h
    revert h
    decide
  refine ⟨?_, rfl, ?_, ?_, ?_⟩
  · simp [ImageKind.from_path, hk]
  · simp [writeExifModel, FsPath.withExtension]
  · intro hcontra
    rw [FsPath.mk.injEq, Option.some_inj] at hcontra
    exact hne hcontra.2.symm
  · simp [writeExifModel, FsPath.withExtension]

/-- Witness for C8 at a concrete input (uppercase `CR3` extension). -/
theorem sidecar_formats_never_touch_original_witness :
    ImageKind.from_path ⟨"photo", some "CR3"⟩ = some ImageKind.Sidecar ∧
    FsPath.withExtension ⟨"photo", some "CR3"⟩ "xmp" =
      ⟨"photo", some "xmp"⟩ ∧
    (writeExifModel ⟨"photo", some "CR3"⟩ aiFull { } fieldsAllOn false
        ImageKind.Sidecar).2 =
      [⟨⟨"photo", some "xmp"⟩, "sidecar"⟩] ∧
    (⟨"photo", some "xmp"⟩ : FsPath) ≠ ⟨"photo", some "CR3"⟩ ∧
    (writeExifModel ⟨"photo", some "CR3"⟩ aiFull { } fieldsAllOn false
        ImageKind.Sidecar).1.sidecar_path = some ⟨"photo", some "xmp"⟩ :=
  sidecar_formats_never_touch_original "photo" "CR3" aiFull { } fieldsAllOn
    (by decide)

/-- C5 counterexample: a response whose `gps` member is `(0,0)` but which the
typed serde parse accepts is returned with `gps = Some((0,0))`, not `None` —
the (0,0) filter lives only in the fallback `value_to_ai_result`
(`src/ai/mod.rs:326`), which is unreachable when the direct parse succeeds
(`src/ai/mod.rs:117-120`). -/
theorem gps_zero_kept_by_direct_parse_counterexample :
    parseCandidateValue gpsZeroResponse =
      some { title := some "Unknown Place", description := some "Somewhere",
             tags := none, gps := some ⟨0, 0⟩, subject := none } ∧
    (parseCandidateValue gpsZeroResponse).map AiResult.gps ≠ some none := by
  constructor
  · rfl
  · decide

/-- C5 (amended): the fallback extractor `value_to_ai_result` — reached only
when no candidate deserializes directly — treats a GPS value with
latitude = 0 and longitude = 0 as absent: any `AiResult` it produces has
`gps = None`.  A response the typed serde parse accepts keeps
`gps = Some((0,0))`. -/
theorem value_extractor_drops_gps_zero (val : Json)
    (obj : List (String × Json)) (hobj : jsonAsObject val = some obj)
    (gobj : List (String × Json))
    (hg : (getField obj "gps").bind jsonAsObject = some gobj)
    (hlat : (getField gobj "latitude").bind jsonAsF64 = some 0)
    (hlon : (getField gobj "longitude").bind jsonAsF64 = some 0)
    (r : AiResult) (hr : value_to_ai_result val = some r) :
    r.gps = none := by
  have hgps : vGps obj = none := by
    simp [vGps, hg, hlat, hlon]
  have hv : value_to_ai_result val =
      if (vTitle obj).isSome || (vDescription obj).isSome ||
          (vTags obj).isSome || (vGps obj).isSome || (vSubject obj).isSome then
        some { title := vTitle obj, description := vDescription obj,
               tags := vTags obj, gps := vGps obj, subject := vSubject obj }
      else none := by
    unfold value_to_ai_result
    rw [hobj]
  rw [hv] at hr
  split at hr
  · rw [Option.some_inj] at hr
    rw [← hr]
    exact hgps
  · exact absurd hr (by simp)

/-- Witness for C5 (amended) at a concrete input: a response with a title
and a (0,0) GPS member, run through the fallback extractor. -/
theorem value_extractor_drops_gps_zero_witness :
    ∃ r, value_to_ai_result
        (.obj [("title", .str "T"),
               ("gps", .obj [("latitude", .num 0), ("longitude", .num 0)])]) =
      some r ∧ r.gps = none := by
  refine ⟨{ title := some "T" }, by decide, ?_⟩
  exact value_extractor_drops_gps_zero
    (.obj [("title", .str "T"),
           ("gps", .obj [("latitude", .num 0), ("longitude", .num 0)])])
    _ rfl _ rfl (by decide) (by decide) _ (by decide)

/-- C4 counterexample: a PNG write with all five field-writes disabled does
NOT leave the chunk list unchanged — `write_xmp_to_png` runs unconditionally
(`src/exif/writer.rs:285-288`) and inserts a skeleton XMP iTXt chunk before
IDAT, so a fourth chunk appears in a three-chunk file. -/
theorem all_disabled_png_write_counterexample :
    let fields : ExifFields :=
      { write_title := false, write_description := false, write_tags := false,
        write_gps := false, write_subject := false, overwrite_existing := false }
    let chunks : List PngChunk :=
      [⟨"IHDR", [0]⟩, ⟨"IDAT", [1]⟩, ⟨"IEND", []⟩]
    write_xmp_to_png chunks { } { } fields ≠ chunks ∧
    (write_xmp_to_png chunks { } { } fields).length = chunks.length + 1 := by
  intro fields chunks
  have hlen : (write_xmp_to_png chunks { } { } fields).length = 4 := by
    simp [write_xmp_to_png, chunks, List.filter, List.findIdx?]
  constructor
  · intro heq
    rw [heq] at hlen
    simp [chunks] at hlen
  · simpa [chunks] using hlen

theorem insert_pos_le_length {α : Type} (l : List α) (p : α → Bool) :
    ((l.findIdx? p).getD l.length) ≤ l.length := by
  cases hf : l.findIdx? p with
  | none => simp
  | some i =>
    simp only [Option.getD_some]
    exact le_of_lt (List.findIdx?_eq_some_iff_findIdx_eq.mp hf).1

/-- C4 (amended): with all five field-writes disabled, a non-dry-run write
leaves JPEG and TIFF files byte-identical (no tags are collected, so the
writer is never invoked) and a Sidecar write touches only the companion
`.xmp` path; but for PNG the XMP writer still runs and inserts a skeleton
XMP iTXt chunk (one more chunk than the input whenever the input carried no
XMP chunk), and for WebP it likewise appends an `"XMP "` chunk — so those
files are not byte-identical. -/
theorem all_disabled_write_effects (ai : AiResult) (existing : ExifData)
    (fields : ExifFields) (p : FsPath)
    (h1 : fields.write_title = false) (h2 : fields.write_description = false)
    (h3 : fields.write_tags = false) (h4 : fields.write_gps = false)
    (h5 : fields.write_subject = false) :
    (writeDecision ai existing fields).2 = [] ∧
    (writeExifModel p ai existing fields false ImageKind.Jpeg).2 = [] ∧
    (writeExifModel p ai existing fields false ImageKind.Tiff).2 = [] ∧
    (writeExifModel p ai existing fields false ImageKind.Sidecar).2 =
      [⟨p.withExtension "xmp", "sidecar"⟩] ∧
    (∀ chunks : List PngChunk,
      (∀ c ∈ chunks, ¬(c.kind = "iTXt" ∧
        xmpChunkKeyword.isPrefixOf c.contents = true)) →
      (write_xmp_to_png chunks ai existing fields).length =
        chunks.length + 1) ∧
    (∀ chunks : List RiffChunk, (∀ c ∈ chunks, c.kind ≠ "XMP ") →
      (write_metadata_to_webp chunks ai existing fields).length =
        chunks.length + 1) := by
  have hdec : (writeDecision ai existing fields).2 = [] := by
    simp [writeDecision, titleStep, descStep, tagsStep, subjStep, gpsStep,
      h1, h2, h3, h4, h5]
  refine ⟨hdec, ?_, ?_, ?_, ?_, ?_⟩
  · simp [writeExifModel, hdec]
  · simp [writeExifModel, hdec]
  · simp [writeExifModel]
  · intro chunks hnoxmp
    have hret : chunks.filter (fun c =>
        if c.kind = "iTXt" then !(xmpChunkKeyword.isPrefixOf c.contents)
        else true) = chunks := by
      apply List.filter_eq_self.mpr
      intro c hc
      by_cases hk : c.kind = "iTXt"
      · have := hnoxmp c hc
        simp only [hk, if_true]
        rcases hpre : xmpChunkKeyword.isPrefixOf c.contents with _ | _
        · rfl
        · exact absurd ⟨hk, hpre⟩ this
      · simp [hk]
    unfold write_xmp_to_png
    rw [hret]
    exact List.length_insertIdx _ _ (insert_pos_le_length chunks _)
  · intro chunks hnoxmp
    have hfil : chunks.filter (fun c => c.kind ≠ "XMP ") = chunks := by
      apply List.filter_eq_self.mpr
      intro c hc
      simpa using hnoxmp c hc
    unfold write_metadata_to_webp
    rw [hfil, h1]
    simp

/-- Witness for C4 (amended) at a concrete input: all writes disabled, a
one-chunk PNG. -/
theorem all_disabled_write_effects_witness :
    let fields : ExifFields :=
      { write_title := false, write_description := false, write_tags := false,
        write_gps := false, write_subject := false, overwrite_existing := true }
    (writeDecision { } { } fields).2 = [] ∧
    (writeExifModel ⟨"img", some "jpg"⟩ { } { } fields false
      ImageKind.Jpeg).2 = [] ∧
    (write_xmp_to_png [⟨"IHDR", [0]⟩] { } { } fields).length = 2 := by
  intro fields
  have h := all_disabled_write_effects { } { } fields ⟨"img", some "jpg"⟩
    rfl rfl rfl rfl rfl
  exact ⟨h.1, h.2.1, h.2.2.2.2.1 [⟨"IHDR", [0]⟩] (by decide)⟩

theorem iptcCopyLoop_eq_preserved (fuel : Nat) (data : List Nat) :
    ∀ pos, iptcCopyLoop fuel data pos =
      (((parse8BIMResources fuel data pos).filter
        (fun r => decide (r.1 ≠ 0x0404))).map Prod.snd).flatten := by
  induction fuel with
  | zero => intro pos; rfl
  | succ n ih =>
    intro pos
    unfold iptcCopyLoop parse8BIMResources
    cases hstep : iptcResourceStep data pos with
    | none => rfl
    | some v =>
      obtain ⟨resource_id, bytes, next⟩ := v
      by_cases hid : resource_id = 0x0404
      · subst hid
        simp [ih next]
      · simp [hid, ih next]

theorem be16_take_length (t : List Nat) (n : Nat) :
    be16 (min t.length n) = be16 (t.take n).length := by
  rw [List.length_take, Nat.min_comm]

theorem evenPad_ite (x : Nat) :
    (if x % 2 = 1 then ([0] : List Nat) else []) =
      if x % 2 = 0 then [] else [0] := by
  rcases Nat.mod_two_eq_zero_or_one x with h | h <;> simp [h]

/-- C7: `build_iptc_contents` returns the `"Photoshop 3.0\0"` header,
followed by every existing 8BIM resource with id ≠ 0x0404 copied verbatim,
followed by one 0x0404 resource whose IIM data is: record version 2:0 =
0x0002, then 2:5 = the title truncated to 64 bytes, then one 2:25 per
keyword in input order (each truncated to 64 bytes), then 2:120 = the
description truncated to 2000 bytes; each dataset length is a big-endian
u16 and the resource data is zero-padded to even length. -/
theorem build_iptc_contents_structure (data : List Nat)
    (title description : Option (List Nat))
    (keywords : Option (List (List Nat)))
    (hpresent : title.isSome ∨ description.isSome ∨ keywords.isSome) :
    build_iptc_contents (some data) title description keywords =
      IPTC_HEADER ++ preservedResourcesSpec data ++
        iptcResourceSpec title description keywords := by
  clear hpresent
  unfold build_iptc_contents preservedResourcesSpec iptcResourceSpec iimSpec
    iimDataset
  rcases title with _ | t <;> rcases description with _ | d <;>
    rcases keywords with _ | kw <;>
    simp [iptcCopyLoop_eq_preserved, be16, List.flatMap_def,
      List.length_take, Nat.min_comm, evenPad_ite]

/-- Witness for C7 at a concrete input: an existing block with one opaque
resource (id 0x0403) and one IPTC resource (id 0x0404), a title and two
keywords. -/
theorem build_iptc_contents_structure_witness :
    build_iptc_contents (some iptcWitnessBlock) (some [0x41, 0x42]) none
        (some [[0x6B], [0x77]]) =
      IPTC_HEADER ++ preservedResourcesSpec iptcWitnessBlock ++
        iptcResourceSpec (some [0x41, 0x42]) none (some [[0x6B], [0x77]]) :=
  build_iptc_contents_structure iptcWitnessBlock (some [0x41, 0x42]) none
    (some [[0x6B], [0x77]]) (Or.inl rfl)

/-- C6: On a TIFF stream of length at least 8 with a valid byte-order marker
(`"II"` or `"MM"`), raw injection with no qualifying additions — no IFD0,
ExifIFD, or GPS IFD entries to write — returns the original bytes unchanged:
a round trip that modifies nothing yields the same bytes. -/
theorem tiff_no_additions_round_trip (original : List Nat) (ai : AiResult)
    (existing : ExifData) (fields : ExifFields)
    (hlen : 8 ≤ original.length)
    (hbom : original.take 2 = [0x49, 0x49] ∨ original.take 2 = [0x4D, 0x4D])
    (h0 : ∀ b, tiffIfd0Additions ai existing fields b = [])
    (he : tiffExifIfdAdditions ai existing fields = [])
    (hg : tiffGpsAdditions ai existing fields = []) :
    inject_ai_tags_into_tiff original ai existing fields = .ok original := by
  unfold inject_ai_tags_into_tiff
  rw [if_neg (by omega)]
  obtain ⟨b, hb⟩ : ∃ b, tiffByteOrder original = some b := by
    rcases hbom with h | h
    · exact ⟨false, by simp [tiffByteOrder, h]⟩
    · exact ⟨true, by simp [tiffByteOrder, h]⟩
  rw [hb]
  simp [h0 b, he, hg]

/-- Witness for C6 at a concrete input: a minimal 8-byte little-endian TIFF
header with every field-write disabled. -/
theorem tiff_no_additions_round_trip_witness :
    inject_ai_tags_into_tiff [0x49, 0x49, 42, 0, 8, 0, 0, 0] { }
        { }
        { write_title := false, write_description := false,
          write_tags := false, write_gps := false, write_subject := false,
          overwrite_existing := false } =
      .ok [0x49, 0x49, 42, 0, 8, 0, 0, 0] :=
  tiff_no_additions_round_trip _ _ _ _ (by decide) (Or.inl (by decide))
    (fun _ => rfl) rfl rfl

end ExifAi
